import Mathlib

/-!
Shallow embedding of the training-job orchestration and progress-broadcasting
core of the crypto-predict server, translated from:
  * `src/server/ml_app/websocket/manager.py`  (ProgressTracker)
  * `src/server/app/models/training.py`       (TrainingStatus, TrainingSession)
  * `src/server/app/services/training_service.py` (TrainingService)
  * `src/server/app/blueprints/api_routes.py` (admission check in `post`)
  * `src/server/app/blueprints/websocket_routes.py` (`handle_join_training`)

Python floats are embedded as exact rationals (ℚ); Python `int()` is the
truncation-toward-zero `pyInt`; Python `round(x, n)` is round-half-to-even
`pyRound`.  Database rows are a list of sessions queried by `session_id`
(first match, mirroring `query.filter_by(...).first()`).  Log calls, sleeps
and timestamps are omitted: they do not affect any modelled observable.
-/

namespace CryptoPredict

/-- Python `int()` applied to a rational: truncation toward zero. -/
def pyInt (q : ℚ) : Int := if 0 ≤ q then ⌊q⌋ else ⌈q⌉

/-- Round half to even to the nearest integer (Python `round` banker's rounding). -/
def rne (q : ℚ) : Int :=
  let f : Int := ⌊q⌋
  let r : ℚ := q - f
  if r < 1/2 then f
  else if 1/2 < r then f + 1
  else if f % 2 = 0 then f else f + 1

/-- Python `round(q, n)`. -/
def pyRound (q : ℚ) (n : ℕ) : ℚ := (rne (q * 10 ^ n) : ℚ) / 10 ^ n

/-! ## Progress tracker (`ml_app/websocket/manager.py`)

`ModelStage` members are identified by their string values; `STAGE_PROGRESS`
is the ordered stage → ceiling table of `ProgressTracker.STAGE_PROGRESS`.
Modelling stages as strings keeps the dictionary-miss behaviour of
`STAGE_PROGRESS.get(stage, 0)` and the `ValueError` branch of
`_get_stage_range` observable. -/

/-- Ordered `STAGE_PROGRESS` table of `ProgressTracker`. -/
def STAGE_PROGRESS : List (String × Int) :=
  [("data_fetching", 5), ("data_fetched", 10), ("preprocessing", 15),
   ("feature_engineering", 20), ("model_building", 25), ("model_info", 30),
   ("training_update", 35), ("training_progress", 40), ("evaluating_update", 70),
   ("visualizing_update", 85), ("training_completed", 100)]

/-- The stage names in table order (`list(self.STAGE_PROGRESS.keys())`). -/
def stageNames : List String := STAGE_PROGRESS.map Prod.fst

/-- Dictionary lookup `self.STAGE_PROGRESS.get(stage, 0)`. -/
def stageBase (stage : String) : Int :=
  match STAGE_PROGRESS.find? (fun p => p.1 = stage) with
  | some p => p.2
  | none => 0

/-- Python `list.index` (first occurrence; `none` models the `ValueError`). -/
def indexOfStage (stage : String) : List String → Option ℕ
  | [] => none
  | s :: rest => if s = stage then some 0 else (indexOfStage stage rest).map (· + 1)

/-- `ProgressTracker._get_stage_range`. -/
def getStageRange (stage : String) : Int :=
  match indexOfStage stage stageNames with
  | none => 5
  | some i =>
    match STAGE_PROGRESS.get? (i + 1) with
    | some nxt => nxt.2 - stageBase stage
    | none => 5

/-- `ProgressTracker.get_progress`. -/
def getProgress (stage : String) (epochProgress subProgress : ℚ) : Int :=
  let baseProgress : Int := stageBase stage
  if stage = "training_progress" then
    min (pyInt ((baseProgress : ℚ) + epochProgress / 100 * 30)) 70
  else if stage = "evaluating_update" then
    min (pyInt ((baseProgress : ℚ) + subProgress / 100 * 15)) 85
  else if stage = "visualizing_update" then
    min (pyInt ((baseProgress : ℚ) + subProgress / 100 * 15)) 100
  else
    min (pyInt ((baseProgress : ℚ) + subProgress / 100 * (getStageRange stage : ℚ)))
      (stageBase stage)

/-- Mutable per-session state of `ProgressTracker` (`__init__`). -/
structure ProgressTracker where
  currentStage : String := "data_fetching"
  currentProgress : Int := 0
  trainingEpochProgress : ℚ := 0
  stageSubProgress : ℚ := 0
deriving DecidableEq

/-- `ProgressTracker.update_stage`. -/
def ProgressTracker.updateStage (t : ProgressTracker) (stage : String) (subProgress : ℚ) :
    ProgressTracker :=
  { t with currentStage := stage, stageSubProgress := subProgress,
           currentProgress := getProgress stage t.trainingEpochProgress subProgress }

/-- `ProgressTracker.update_training_progress` (`epoch / total_epochs * 100`). -/
def ProgressTracker.updateTrainingProgress (t : ProgressTracker) (epoch totalEpochs : ℕ) :
    ProgressTracker :=
  let f : ℚ := (epoch : ℚ) / (totalEpochs : ℚ) * 100
  { t with trainingEpochProgress := f,
           currentProgress := getProgress "training_progress" f t.stageSubProgress }

/-- `ProgressTracker.update_sub_progress`. -/
def ProgressTracker.updateSubProgress (t : ProgressTracker) (subProgress : ℚ) :
    ProgressTracker :=
  { t with stageSubProgress := subProgress,
           currentProgress := getProgress t.currentStage t.trainingEpochProgress subProgress }

/-! ## Job record store (`app/models/training.py`, `app/services/training_service.py`)

`TrainingSession` keeps the columns the orchestrator reads or writes
(identity, requested configuration echoed back, lifecycle status, and the six
numeric result columns).  Date, file-path, log and timestamp columns are not
consulted by any modelled operation and are omitted.  The database is a list
of rows; `query.filter_by(session_id=...).first()` is first-match lookup. -/

/-- The `TrainingStatus` enum. -/
inductive TrainingStatus where
  | PENDING
  | IN_PROGRESS
  | COMPLETED
  | FAILED
  | CANCELLED
deriving DecidableEq, BEq

/-- The `.value` of a `TrainingStatus` member. -/
def statusValue : TrainingStatus → String
  | .PENDING => "PENDING"
  | .IN_PROGRESS => "IN_PROGRESS"
  | .COMPLETED => "COMPLETED"
  | .FAILED => "FAILED"
  | .CANCELLED => "CANCELLED"

/-- A `training_sessions` row (the columns the modelled operations touch). -/
structure TrainingSession where
  sessionId : String
  ticker : String
  modelType : String
  epochs : ℕ
  status : TrainingStatus
  accuracy : Option ℚ := none
  loss : Option ℚ := none
  r2Score : Option ℚ := none
  mae : Option ℚ := none
  rmse : Option ℚ := none
  mape : Option ℚ := none
deriving DecidableEq

/-- `TrainingSession.update_status`: sets the status unconditionally. -/
def TrainingSession.updateStatus (s : TrainingSession) (st : TrainingStatus) :
    TrainingSession :=
  { s with status := st }

/-- Keep the old value when the argument is `None` (the
`if arg is not None: self.field = arg` pattern in `TrainingSession.complete`). -/
def setIfSome (new old : Option ℚ) : Option ℚ :=
  match new with
  | some x => some x
  | none => old

/-- `TrainingSession.complete`: status becomes COMPLETED and each metric
argument that is not `None` overwrites the stored column. -/
def TrainingSession.complete (s : TrainingSession)
    (accuracy loss r2Score mae rmse mape : Option ℚ) : TrainingSession :=
  { s with status := .COMPLETED,
           accuracy := setIfSome accuracy s.accuracy,
           loss := setIfSome loss s.loss,
           r2Score := setIfSome r2Score s.r2Score,
           mae := setIfSome mae s.mae,
           rmse := setIfSome rmse s.rmse,
           mape := setIfSome mape s.mape }

/-- The persisted `training_sessions` table. -/
abbrev Store := List TrainingSession

/-- `TrainingSession.query.filter_by(session_id=sid).first()`. -/
def findSession : Store → String → Option TrainingSession
  | [], _ => none
  | s :: rest, sid => if s.sessionId = sid then some s else findSession rest sid

/-- Mutate the first row matching `sid` (a fetched ORM row mutated then
committed); a missing row leaves the table unchanged (the logged no-op
branches of the `_update_*` helpers). -/
def updateSession : Store → String → (TrainingSession → TrainingSession) → Store
  | [], _, _ => []
  | s :: rest, sid, f =>
      if s.sessionId = sid then f s :: rest else s :: updateSession rest sid f

/-- `TrainingService._update_training_status`. -/
def updateTrainingStatus (db : Store) (sid : String) (st : TrainingStatus) : Store :=
  updateSession db sid (fun s => s.updateStatus st)

/-- `TrainingService._update_training_progress`: stores the latest epoch's
accuracy and loss (the `epoch` and `progress` arguments are logged only). -/
def updateTrainingProgress (db : Store) (sid : String) (accuracy loss : ℚ) : Store :=
  updateSession db sid (fun s => { s with accuracy := some accuracy, loss := some loss })

/-- `TrainingService._update_training_results`: calls `session.complete` with
required accuracy/loss and optional remaining metrics. -/
def updateTrainingResults (db : Store) (sid : String) (accuracy loss : ℚ)
    (r2Score mae rmse mape : Option ℚ) : Store :=
  updateSession db sid
    (fun s => s.complete (some accuracy) (some loss) r2Score mae rmse mape)

/-- `TrainingService._is_training_cancelled` (`session and session.status == CANCELLED`). -/
def isTrainingCancelled (db : Store) (sid : String) : Bool :=
  match findSession db sid with
  | some s => s.status == .CANCELLED
  | none => false

/-- Result dictionary of `TrainingService.cancel_training`. -/
structure CancelResult where
  success : Bool
  message : Option String := none
  error : Option String := none
deriving DecidableEq

/-- `TrainingService.cancel_training`. -/
def cancelTraining (db : Store) (sid : String) : Store × CancelResult :=
  match findSession db sid with
  | none =>
      (db, { success := false,
             error := some ("No training session found with ID " ++ sid) })
  | some s =>
      if s.status = .IN_PROGRESS then
        (updateSession db sid (fun t => t.updateStatus .CANCELLED),
         { success := true, message := some "Training cancelled successfully" })
      else
        (db, { success := false,
               error := some ("Training session is not in progress (status: "
                 ++ statusValue s.status ++ ")") })

/-- Count of rows currently IN_PROGRESS
(`TrainingSession.query.filter_by(status=TrainingStatus.IN_PROGRESS).count()`). -/
def countActive (db : Store) : ℕ :=
  (db.filter (fun s => s.status == TrainingStatus.IN_PROGRESS)).length

/-! ## Simulated execution path (`TrainingService._complete_training_immediately`)

The fall-over path synthesizes metrics with `random.uniform` draws;
`SimParams` carries the drawn values (in the source: `accuracy` ∈ 0.85±0.05,
`loss` ∈ 0.15±0.05, `r2_score` ∈ 0.75±0.1, `mae` ∈ 500±100, `rmse` ∈ 800±150,
`mape` ∈ 5±2, and a fresh ±0.02 noise pair per epoch).  Events are the flat
`training_update` emissions of `_emit_training_update` — the stream every
room subscriber receives; the `emit_unified`/`emit_metric_sample`/`emit_series`
duplicates on the secondary unified channel repeat the same data and are not
modelled separately.  Event `message` texts and the completion payload's
`final_*`/metric entries are presentation-only and omitted. -/

/-- The random draws made by one run of the simulated path. -/
structure SimParams where
  accuracy : ℚ
  loss : ℚ
  r2Score : ℚ
  mae : ℚ
  rmse : ℚ
  mape : ℚ
  accNoise : ℕ → ℚ
  lossNoise : ℕ → ℚ

/-- Zero-noise instance of the random draws (all `random.uniform` calls at
the centre of their ranges' offsets). -/
def simParams0 : SimParams :=
  { accuracy := 85/100, loss := 15/100, r2Score := 75/100,
    mae := 500, rmse := 800, mape := 5,
    accNoise := fun _ => 0, lossNoise := fun _ => 0 }

/-- `max_epochs = min(epochs, 20) or 1` (Python `or`: `0` is falsy). -/
def maxEpochsOf (epochs : ℕ) : ℕ :=
  if min epochs 20 = 0 then 1 else min epochs 20

/-- `current_accuracy = accuracy * (epoch / max_epochs) + random.uniform(-0.02, 0.02)`. -/
def epochAccuracy (p : SimParams) (maxEpochs epoch : ℕ) : ℚ :=
  p.accuracy * ((epoch : ℚ) / (maxEpochs : ℚ)) + p.accNoise epoch

/-- `current_loss = loss * (1 - epoch / max_epochs) + random.uniform(-0.02, 0.02)`. -/
def epochLoss (p : SimParams) (maxEpochs epoch : ℕ) : ℚ :=
  p.loss * (1 - (epoch : ℚ) / (maxEpochs : ℚ)) + p.lossNoise epoch

/-- One flat `training_update` payload (fields referenced by the claims). -/
structure TrainingEvent where
  typ : String
  progress : Int
  epoch : ℕ
  totalEpochs : ℕ
  accuracy : Option ℚ := none
  loss : Option ℚ := none
deriving DecidableEq

/-- The `training_started` event (progress 0, `total_epochs` echoes the
requested epochs). -/
def trainingStartedEvent (epochs : ℕ) : TrainingEvent :=
  { typ := "training_started", progress := 0, epoch := 0, totalEpochs := epochs }

/-- The per-epoch `training_progress` event of the simulated loop
(`progress = int(epoch / max_epochs * 100)`, metrics rounded to 4 digits). -/
def epochProgressEvent (p : SimParams) (maxEpochs epoch : ℕ) : TrainingEvent :=
  { typ := "training_progress",
    progress := pyInt ((epoch : ℚ) / (maxEpochs : ℚ) * 100),
    epoch := epoch, totalEpochs := maxEpochs,
    accuracy := some (pyRound (epochAccuracy p maxEpochs epoch) 4),
    loss := some (pyRound (epochLoss p maxEpochs epoch) 4) }

/-- The flat events emitted by the `for epoch in range(1, max_epochs + 1)` loop,
one per simulated epoch. -/
def simulatedEpochEvents (p : SimParams) (maxEpochs : ℕ) : List TrainingEvent :=
  (List.range' 1 maxEpochs).map (epochProgressEvent p maxEpochs)

/-- The post-loop `training_progress` summary event (progress 100, final
sampled metrics). -/
def finalProgressEvent (p : SimParams) (maxEpochs : ℕ) : TrainingEvent :=
  { typ := "training_progress", progress := 100,
    epoch := maxEpochs, totalEpochs := maxEpochs,
    accuracy := some (pyRound p.accuracy 4), loss := some (pyRound p.loss 4) }

/-- The terminal `training_completed` event (its `final_*`/metric payload
entries are not modelled). -/
def trainingCompletedEvent (maxEpochs : ℕ) : TrainingEvent :=
  { typ := "training_completed", progress := 100,
    epoch := maxEpochs, totalEpochs := maxEpochs }

/-- Database writes of the epoch loop: each iteration stores the unrounded
epoch metrics via `_update_training_progress`. -/
def simLoopDb (p : SimParams) (sid : String) (maxEpochs : ℕ) (db : Store) : Store :=
  (List.range' 1 maxEpochs).foldl
    (fun acc epoch =>
      updateTrainingProgress acc sid (epochAccuracy p maxEpochs epoch)
        (epochLoss p maxEpochs epoch))
    db

/-- `TrainingService._complete_training_immediately`: emits the start event,
runs the bounded simulated epoch loop (events plus progress writes), stores the
final progress, sets COMPLETED, stores the results, and emits the summary and
completion events. -/
def completeTrainingImmediately (p : SimParams) (sid ticker modelType : String)
    (epochs : ℕ) (db : Store) : Store × List TrainingEvent :=
  let maxEpochs := maxEpochsOf epochs
  let db1 := simLoopDb p sid maxEpochs db
  let db2 := updateTrainingProgress db1 sid p.accuracy p.loss
  let db3 := updateTrainingStatus db2 sid .COMPLETED
  let db4 := updateTrainingResults db3 sid p.accuracy p.loss
               (some p.r2Score) (some p.mae) (some p.rmse) (some p.mape)
  (db4,
   trainingStartedEvent epochs ::
     simulatedEpochEvents p maxEpochs ++
       [finalProgressEvent p maxEpochs, trainingCompletedEvent maxEpochs])

/-- `TrainingService._run_training_background` with the application context
stripped: the opaque real execution path (`_run_real_training`, driven by the
external model/data collaborators) either returns its own outcome or raises
(`none`); on raise the worker falls over to `_complete_training_immediately`.
The `ticker`/`model_type`/`epochs` arguments are the `training_data` entries. -/
def runTrainingBackground (realPath : Store → Option (Store × List TrainingEvent))
    (p : SimParams) (sid ticker modelType : String) (epochs : ℕ) (db : Store) :
    Store × List TrainingEvent :=
  match realPath db with
  | some out => out
  | none => completeTrainingImmediately p sid ticker modelType epochs db

/-! ## Admission (`TrainingResource.post` in `app/blueprints/api_routes.py`)

After schema validation succeeds, the handler checks `epochs` against
`MAX_EPOCHS` (default 1000), then counts IN_PROGRESS rows against
`MAX_TRAINING_SESSIONS` (default 10) and returns HTTP 429 before
`_create_training_session` runs; otherwise it creates a PENDING row and
hands it to `TrainingService.start_training`. -/

/-- Outcome of the post-validation part of the training POST handler. -/
inductive PostResponse where
  | epochsExceeded (maxEpochs requested : ℕ)
  | capacityError (maxSessions activeSessions : ℕ)
  | accepted (sessionId : String)
deriving DecidableEq

/-- Whether the response is the 429 `RESOURCE_LIMIT_EXCEEDED` capacity error. -/
def PostResponse.isCapacityError : PostResponse → Bool
  | .capacityError _ _ => true
  | _ => false

/-- The PENDING row built by `TrainingResource._create_training_session`. -/
def createTrainingSession (sessionId ticker modelType : String) (epochs : ℕ) :
    TrainingSession :=
  { sessionId := sessionId, ticker := ticker, modelType := modelType,
    epochs := epochs, status := .PENDING }

/-- `TrainingResource.post` from the business-rule checks onward (schema
validation already passed; the subsequent `start_training` call is modelled
separately by `runTrainingBackground`). -/
def handleTrainingPost (db : Store) (requestId ticker modelType : String)
    (epochs : ℕ) (maxEpochs : ℕ := 1000) (maxSessions : ℕ := 10) :
    Store × PostResponse :=
  if epochs > maxEpochs then (db, .epochsExceeded maxEpochs epochs)
  else if countActive db ≥ maxSessions then
    (db, .capacityError maxSessions (countActive db))
  else
    (db ++ [createTrainingSession requestId ticker modelType epochs],
     .accepted requestId)

/-! ## Training-room subscription (`handle_join_training` in
`app/blueprints/websocket_routes.py`)

`client_rooms` is the module-level client → rooms map; `emit(...)` with no
room argument goes to the requesting client only. -/

/-- Destination of a socket emission. -/
inductive EmitDest where
  | toCaller
  | toRoom (room : String)
deriving DecidableEq

/-- One `emit(event, payload)` call (payload fields referenced by the claims). -/
structure WsEmit where
  event : String
  dest : EmitDest
  sessionId : Option String := none
  typ : Option String := none
  progress : Option Int := none
deriving DecidableEq

/-- The module-level `client_rooms` dict (client sid → set of room names). -/
abbrev ClientRooms := List (String × List String)

/-- Rooms tracked for a client (`client_rooms.get(client_id, set())`;
dictionary keys are unique, so first-match lookup is exact). -/
def roomsOf : ClientRooms → String → List String
  | [], _ => []
  | p :: rest, clientId => if p.1 = clientId then p.2 else roomsOf rest clientId

/-- `client_rooms.setdefault(client_id, set()).add(room)` as performed by the
join handlers (create the entry if absent, then add the room to the set;
dictionary keys are unique, so updating the first matching entry is exact). -/
def addRoom : ClientRooms → String → String → ClientRooms
  | [], clientId, room => [(clientId, [room])]
  | p :: rest, clientId, room =>
      if p.1 = clientId then
        (p.1, if room ∈ p.2 then p.2 else p.2 ++ [room]) :: rest
      else p :: addRoom rest clientId room

/-- The `joined_training` acknowledgment emission. -/
def joinedTrainingEmit (sid : String) : WsEmit :=
  { event := "joined_training", dest := .toCaller, sessionId := some sid }

/-- The immediate snapshot emission: one `training_update` of type `status`
with progress 0, sent directly to the joining client (no room). -/
def snapshotEmit (sid : String) : WsEmit :=
  { event := "training_update", dest := .toCaller, sessionId := some sid,
    typ := some "status", progress := some 0 }

/-- `handle_join_training`: returns the updated `client_rooms` map and the
emissions of the handler, in order. -/
def handleJoinTraining (cr : ClientRooms) (clientId : String)
    (sessionId : Option String) : ClientRooms × List WsEmit :=
  match sessionId with
  | none => (cr, [{ event := "error_update", dest := .toCaller }])
  | some sid =>
      let roomName := "training_" ++ sid
      if roomName ∈ roomsOf cr clientId then
        (cr, [])
      else
        (addRoom cr clientId roomName,
         [joinedTrainingEmit sid, snapshotEmit sid])

/-! ## Statement apparatus and concrete fixtures -/

/-- The upper clamp applied by each branch of `get_progress` (the second
argument of its `min`): 70 for the training stage, 85 for evaluation, 100 for
visualization, and the stage's own ceiling otherwise. -/
def stageUpperBound (stage : String) : Int :=
  if stage = "training_progress" then 70
  else if stage = "evaluating_update" then 85
  else if stage = "visualizing_update" then 100
  else stageBase stage

/-- A concrete session row used by witnesses and counterexamples. -/
def fxSession (sid : String) (st : TrainingStatus) : TrainingSession :=
  { sessionId := sid, ticker := "BTC-USD", modelType := "LSTM", epochs := 5,
    status := st }

/-! ## Helper lemmas -/

theorem pyInt_intCast (n : ℤ) : pyInt (n : ℚ) = n := by
  rw [pyInt]
  split <;> simp

theorem pyInt_nonneg {q : ℚ} (h : 0 ≤ q) : 0 ≤ pyInt q := by
  rw [pyInt, if_pos h]
  exact Int.floor_nonneg.2 h

theorem stageBase_train : stageBase "training_progress" = 40 := by decide

theorem getProgress_train (f sub : ℚ) :
    getProgress "training_progress" f sub = min (pyInt (40 + f / 100 * 30)) 70 := by
  rw [getProgress]
  simp only [stageBase_train, reduceIte]
  norm_num

theorem trackerTrainValue (t : ProgressTracker) (e total : ℕ) (v : ℤ)
    (h : (40 : ℚ) + (e : ℚ) / (total : ℚ) * 100 / 100 * 30 = (v : ℚ)) (hv : v ≤ 70) :
    (t.updateTrainingProgress e total).currentProgress = v := by
  simp only [ProgressTracker.updateTrainingProgress]
  rw [getProgress_train, h, pyInt_intCast]
  exact min_eq_left hv

theorem find?_eq_none_of_not_mem_keys (stage : String) :
    ∀ l : List (String × Int), stage ∉ l.map Prod.fst →
      l.find? (fun p => p.1 = stage) = none
  | [], _ => rfl
  | p :: rest, h => by
    simp only [List.map_cons, List.mem_cons, not_or] at h
    rw [List.find?_cons_of_neg, find?_eq_none_of_not_mem_keys stage rest h.2]
    simpa using fun hc => h.1 hc.symm

theorem stageBase_of_not_mem {stage : String} (h : stage ∉ stageNames) :
    stageBase stage = 0 := by
  rw [stageBase, find?_eq_none_of_not_mem_keys stage STAGE_PROGRESS h]

theorem indexOfStage_eq_none {stage : String} :
    ∀ l : List String, stage ∉ l → indexOfStage stage l = none
  | [], _ => rfl
  | s :: rest, h => by
    simp only [List.mem_cons, not_or] at h
    rw [indexOfStage, if_neg (fun hc => h.1 hc.symm),
      indexOfStage_eq_none rest h.2, Option.map_none']

theorem getStageRange_of_not_mem {stage : String} (h : stage ∉ stageNames) :
    getStageRange stage = 5 := by
  rw [getStageRange, indexOfStage_eq_none stageNames h]

theorem getProgress_unknown {stage : String} (h : stage ∉ stageNames)
    (f sub : ℚ) (hsub : 0 ≤ sub) : getProgress stage f sub = 0 := by
  have h1 : stage ≠ "training_progress" := fun hc => h (by rw [hc]; decide)
  have h2 : stage ≠ "evaluating_update" := fun hc => h (by rw [hc]; decide)
  have h3 : stage ≠ "visualizing_update" := fun hc => h (by rw [hc]; decide)
  rw [getProgress]
  simp only [if_neg h1, if_neg h2, if_neg h3, stageBase_of_not_mem h,
    getStageRange_of_not_mem h]
  have : (0 : ℤ) ≤ pyInt (((0 : ℤ) : ℚ) + sub / 100 * ((5 : ℤ) : ℚ)) := by
    apply pyInt_nonneg
    positivity
  omega

theorem getProgress_le (stage : String) (f sub : ℚ) :
    getProgress stage f sub ≤ stageUpperBound stage := by
  rw [getProgress, stageUpperBound]
  split_ifs <;> exact min_le_right _ _

theorem findSession_updateSession (db : Store) (sid : String)
    (f : TrainingSession → TrainingSession)
    (hf : ∀ x, (f x).sessionId = x.sessionId) :
    findSession (updateSession db sid f) sid = (findSession db sid).map f := by
  induction db with
  | nil => rfl
  | cons s rest ih =>
    by_cases h : s.sessionId = sid
    · simp [updateSession, findSession, h, hf]
    · simp [updateSession, findSession, h, ih]

theorem findSession_updateTrainingProgress (db : Store) (sid : String)
    (a l : ℚ) {s : TrainingSession} (h : findSession db sid = some s) :
    findSession (updateTrainingProgress db sid a l) sid =
      some { s with accuracy := some a, loss := some l } := by
  have hu := findSession_updateSession db sid
    (fun t => { t with accuracy := some a, loss := some l }) (fun x => rfl)
  rw [updateTrainingProgress, hu, h]
  rfl

theorem findSession_updateTrainingStatus (db : Store) (sid : String)
    (st : TrainingStatus) {s : TrainingSession} (h : findSession db sid = some s) :
    findSession (updateTrainingStatus db sid st) sid = some { s with status := st } := by
  have hu := findSession_updateSession db sid (fun t => t.updateStatus st) (fun x => rfl)
  rw [updateTrainingStatus, hu, h]
  rfl

theorem findSession_updateTrainingResults (db : Store) (sid : String)
    (a l : ℚ) (r2 mae rmse mape : Option ℚ) {s : TrainingSession}
    (h : findSession db sid = some s) :
    findSession (updateTrainingResults db sid a l r2 mae rmse mape) sid =
      some { s with status := .COMPLETED,
                    accuracy := some a, loss := some l,
                    r2Score := setIfSome r2 s.r2Score,
                    mae := setIfSome mae s.mae,
                    rmse := setIfSome rmse s.rmse,
                    mape := setIfSome mape s.mape } := by
  have hu := findSession_updateSession db sid
    (fun t => t.complete (some a) (some l) r2 mae rmse mape) (fun x => rfl)
  rw [updateTrainingResults, hu, h]
  rfl

theorem findSession_simLoopDb (p : SimParams) (sid : String) (maxE : ℕ)
    (db : Store) {s : TrainingSession} (h : findSession db sid = some s) :
    ∃ a l : Option ℚ,
      findSession (simLoopDb p sid maxE db) sid =
        some { s with accuracy := a, loss := l } := by
  rw [simLoopDb]
  induction List.range' 1 maxE generalizing db s with
  | nil => exact ⟨s.accuracy, s.loss, by simpa using h⟩
  | cons e rest ih =>
    simp only [List.foldl_cons]
    obtain ⟨a, l, h'⟩ := ih (updateTrainingProgress db sid (epochAccuracy p maxE e)
      (epochLoss p maxE e)) (findSession_updateTrainingProgress db sid _ _ h)
    exact ⟨a, l, h'⟩

theorem findSession_completeTrainingImmediately (p : SimParams)
    (sid ticker modelType : String) (epochs : ℕ) (db : Store) {s : TrainingSession}
    (h : findSession db sid = some s) :
    findSession (completeTrainingImmediately p sid ticker modelType epochs db).1 sid =
      some { s with status := .COMPLETED,
                    accuracy := some p.accuracy, loss := some p.loss,
                    r2Score := some p.r2Score, mae := some p.mae,
                    rmse := some p.rmse, mape := some p.mape } := by
  rw [completeTrainingImmediately]
  obtain ⟨a, l, h1⟩ := findSession_simLoopDb p sid (maxEpochsOf epochs) db h
  have h2 := findSession_updateTrainingProgress _ sid p.accuracy p.loss h1
  have h3 := findSession_updateTrainingStatus _ sid .COMPLETED h2
  have h4 := findSession_updateTrainingResults _ sid p.accuracy p.loss
    (some p.r2Score) (some p.mae) (some p.rmse) (some p.mape) h3
  simpa [setIfSome] using h4

theorem maxEpochsOf_eq (epochs : ℕ) : maxEpochsOf epochs = max 1 (min epochs 20) := by
  rw [maxEpochsOf]
  split <;> omega

theorem maxEpochsOf_pos (epochs : ℕ) : 1 ≤ maxEpochsOf epochs := by
  rw [maxEpochsOf_eq]
  omega

theorem simulatedEpochEvents_length (p : SimParams) (maxE : ℕ) :
    (simulatedEpochEvents p maxE).length = maxE := by
  simp [simulatedEpochEvents]

theorem range'_getLast? (s : ℕ) : ∀ n : ℕ,
    (List.range' s (n + 1)).getLast? = some (s + n) := by
  intro n
  induction n generalizing s with
  | zero => rfl
  | succ k ih =>
    rw [List.range'_succ, List.range'_succ, List.getLast?_cons_cons, ← List.range'_succ,
      ih (s + 1)]
    congr 1
    omega

theorem getLast?_map {α β : Type} (f : α → β) : ∀ l : List α,
    (l.map f).getLast? = l.getLast?.map f
  | [] => rfl
  | [a] => rfl
  | a :: b :: l => by
    rw [List.map_cons, List.getLast?_cons_cons, List.map_cons, List.getLast?_cons_cons,
      ← List.map_cons, getLast?_map f (b :: l)]

theorem epochProgressEvent_last (p : SimParams) (maxE : ℕ) (h : maxE ≠ 0) :
    (epochProgressEvent p maxE maxE).progress = 100 := by
  have hq : ((maxE : ℚ) / (maxE : ℚ) * 100) = ((100 : ℤ) : ℚ) := by
    rw [div_self (by exact_mod_cast h)]
    norm_num
  show pyInt ((maxE : ℚ) / (maxE : ℚ) * 100) = 100
  rw [hq, pyInt_intCast]

theorem simulatedEpochEvents_getLast? (p : SimParams) (maxE : ℕ) (h : 1 ≤ maxE) :
    (simulatedEpochEvents p maxE).getLast?.map (·.progress) = some 100 := by
  obtain ⟨k, rfl⟩ : ∃ k, maxE = k + 1 := ⟨maxE - 1, by omega⟩
  rw [simulatedEpochEvents, getLast?_map, range'_getLast? 1 k]
  show some (epochProgressEvent p (k + 1) (1 + k)).progress = some 100
  rw [Nat.add_comm 1 k, epochProgressEvent_last p (k + 1) (by omega)]

theorem roomsOf_addRoom (clientId room : String) : ∀ cr : ClientRooms,
    room ∈ roomsOf (addRoom cr clientId room) clientId
  | [] => by simp [addRoom, roomsOf]
  | p :: rest => by
    rw [addRoom]
    by_cases h : p.1 = clientId
    · rw [if_pos h, roomsOf, if_pos h]
      split <;> simp_all
    · rw [if_neg h, roomsOf, if_neg h]
      exact roomsOf_addRoom clientId room rest

/-! ## Claims -/

/-- C1 (counterexample): the claim that a terminal status is final fails — a
session whose status is CANCELLED (terminal) is moved to COMPLETED by the
worker's status write (`_update_training_status`, the write the worker issues
at completion); the transition is applied, not rejected. -/
theorem C1_counterexample :
    (findSession [fxSession "sess-1" .CANCELLED] "sess-1").map (·.status) =
      some .CANCELLED ∧
    (findSession (updateTrainingStatus [fxSession "sess-1" .CANCELLED] "sess-1"
        .COMPLETED) "sess-1").map (·.status) = some .COMPLETED ∧
    TrainingStatus.COMPLETED ≠ TrainingStatus.CANCELLED := by
  decide

/-- C1 (amended): only `cancel_training` guards the transition it performs —
cancelling a session that is not IN_PROGRESS is a rejected no-op — while
`TrainingSession.update_status` (used by the worker's own completion/failure
writes) applies any requested status unconditionally, including out of a
terminal state. -/
theorem C1_amended :
    (∀ (db : Store) (sid : String) (st : TrainingStatus) (s : TrainingSession),
      findSession db sid = some s →
      findSession (updateTrainingStatus db sid st) sid = some { s with status := st }) ∧
    (∀ (db : Store) (sid : String) (s : TrainingSession),
      findSession db sid = some s → s.status ≠ .IN_PROGRESS →
      cancelTraining db sid =
        (db, { success := false,
               error := some ("Training session is not in progress (status: "
                 ++ statusValue s.status ++ ")") })) := by
  constructor
  · intro db sid st s h
    exact findSession_updateTrainingStatus db sid st h
  · intro db sid s h hst
    rw [cancelTraining, h]
    simp only [if_neg hst]

/-- C1 witness: the amended statement evaluated at concrete inputs — a
CANCELLED session is rewritten to COMPLETED by `update_status`, and a cancel
against a COMPLETED session is rejected leaving the store unchanged. -/
theorem C1_witness :
    findSession (updateTrainingStatus [fxSession "sess-9" .CANCELLED] "sess-9"
        .COMPLETED) "sess-9" =
      some { fxSession "sess-9" .CANCELLED with status := .COMPLETED } ∧
    cancelTraining [fxSession "sess-8" .COMPLETED] "sess-8" =
      ([fxSession "sess-8" .COMPLETED],
       { success := false,
         error := some ("Training session is not in progress (status: "
           ++ statusValue TrainingStatus.COMPLETED ++ ")") }) :=
  ⟨C1_amended.1 [fxSession "sess-9" .CANCELLED] "sess-9" .COMPLETED
      (fxSession "sess-9" .CANCELLED) (by decide),
   C1_amended.2 [fxSession "sess-8" .COMPLETED] "sess-8"
      (fxSession "sess-8" .COMPLETED) (by decide) (by decide)⟩

/-- C3: the worker never polls the job record — `_is_training_cancelled` has
no caller.  Evaluated at a session that is already CANCELLED before the
simulated run starts (so the cancelled status is observable at every
stage/epoch boundary), the run still emits its full set of progress events
(5 epoch events plus the progress-100 summary) and overwrites the CANCELLED
status with COMPLETED, contradicting the claim that the worker observes
CANCELLED and stops emitting. -/
theorem C3_worker_ignores_cancellation :
    isTrainingCancelled [fxSession "sess-4" .CANCELLED] "sess-4" = true ∧
    ((completeTrainingImmediately simParams0 "sess-4" "BTC-USD" "LSTM" 5
        [fxSession "sess-4" .CANCELLED]).2.filter
          (fun e => e.typ == "training_progress")).length = 6 ∧
    (findSession (completeTrainingImmediately simParams0 "sess-4" "BTC-USD" "LSTM" 5
        [fxSession "sess-4" .CANCELLED]).1 "sess-4").map (·.status) =
      some .COMPLETED := by
  decide

/-- C5 (counterexample): the claim that result fields are non-null only when
COMPLETED fails — the per-epoch progress write stores accuracy and loss while
the session's status is still IN_PROGRESS. -/
theorem C5_counterexample :
    ((findSession (updateTrainingProgress [fxSession "sess-2" .IN_PROGRESS] "sess-2"
        (1/2) (1/10)) "sess-2").map (·.status) = some .IN_PROGRESS) ∧
    ((findSession (updateTrainingProgress [fxSession "sess-2" .IN_PROGRESS] "sess-2"
        (1/2) (1/10)) "sess-2").map (fun s => s.accuracy.isSome) = some true) ∧
    ((findSession (updateTrainingProgress [fxSession "sess-2" .IN_PROGRESS] "sess-2"
        (1/2) (1/10)) "sess-2").map (fun s => s.loss.isSome) = some true) := by
  decide

/-- C5 (amended): the per-epoch progress write sets only accuracy and loss
(leaving status and the four remaining metric columns untouched, so r2_score,
mae, rmse and mape stay null until completion), and `TrainingSession.complete` —
the only writer of those four columns — always sets status COMPLETED in the
same write. -/
theorem C5_amended :
    (∀ (db : Store) (sid : String) (a l : ℚ) (s : TrainingSession),
      findSession db sid = some s →
      findSession (updateTrainingProgress db sid a l) sid =
        some { s with accuracy := some a, loss := some l }) ∧
    (∀ (s : TrainingSession) (a l r2 mae rmse mape : Option ℚ),
      (s.complete a l r2 mae rmse mape).status = .COMPLETED) := by
  constructor
  · intro db sid a l s h
    exact findSession_updateTrainingProgress db sid a l h
  · intro s a l r2 mae rmse mape
    rfl

/-- C5 witness: the amended statement evaluated at a concrete IN_PROGRESS
session and a concrete `complete` call. -/
theorem C5_witness :
    findSession (updateTrainingProgress [fxSession "sess-7" .IN_PROGRESS] "sess-7"
        (3/4) (1/4)) "sess-7" =
      some { fxSession "sess-7" .IN_PROGRESS with
               accuracy := some (3/4), loss := some (1/4) } ∧
    ((fxSession "sess-7" .IN_PROGRESS).complete none none none none none none).status =
      .COMPLETED :=
  ⟨C5_amended.1 [fxSession "sess-7" .IN_PROGRESS] "sess-7" (3/4) (1/4)
      (fxSession "sess-7" .IN_PROGRESS) (by decide),
   C5_amended.2 (fxSession "sess-7" .IN_PROGRESS) none none none none none none⟩

/-- C8: cancelling a session that exists but is not IN_PROGRESS returns a
failure result and leaves the store unchanged, and cancelling an unknown
session id returns a failure result naming the absence (no exception is
modelled because `cancel_training` catches everything). -/
theorem C8_cancel_guard :
    (∀ (db : Store) (sid : String) (s : TrainingSession),
      findSession db sid = some s → s.status ≠ .IN_PROGRESS →
      (cancelTraining db sid).1 = db ∧ (cancelTraining db sid).2.success = false ∧
      (cancelTraining db sid).2.error =
        some ("Training session is not in progress (status: "
          ++ statusValue s.status ++ ")")) ∧
    (∀ (db : Store) (sid : String),
      findSession db sid = none →
      cancelTraining db sid =
        (db, { success := false,
               error := some ("No training session found with ID " ++ sid) })) := by
  constructor
  · intro db sid s h hst
    rw [cancelTraining, h]
    simp [if_neg hst]
  · intro db sid h
    rw [cancelTraining, h]

/-- C8 witness: cancel evaluated against a PENDING session (rejected, store
unchanged) and against an empty store (absence reported). -/
theorem C8_witness :
    (cancelTraining [fxSession "sess-6" .PENDING] "sess-6").1 =
      [fxSession "sess-6" .PENDING] ∧
    (cancelTraining [fxSession "sess-6" .PENDING] "sess-6").2.success = false ∧
    cancelTraining [] "ghost" =
      ([], { success := false,
             error := some ("No training session found with ID " ++ "ghost") }) :=
  ⟨(C8_cancel_guard.1 [fxSession "sess-6" .PENDING] "sess-6"
      (fxSession "sess-6" .PENDING) (by decide) (by decide)).1,
   (C8_cancel_guard.1 [fxSession "sess-6" .PENDING] "sess-6"
      (fxSession "sess-6" .PENDING) (by decide) (by decide)).2.1,
   C8_cancel_guard.2 [] "ghost" rfl⟩

/-- C2: whenever the real execution path raises (returns `none`), the worker
falls over to the simulated path and the session reaches status COMPLETED
with all six metric columns populated, and the simulated path runs a bounded
number of epoch events — exactly `maxEpochsOf epochs ≤ 20` of them. -/
theorem C2_failover (realPath : Store → Option (Store × List TrainingEvent))
    (p : SimParams) (sid ticker modelType : String) (epochs : ℕ) (db : Store)
    (s : TrainingSession) (hreal : realPath db = none)
    (hs : findSession db sid = some s) :
    (findSession (runTrainingBackground realPath p sid ticker modelType epochs db).1
        sid =
      some { s with status := .COMPLETED,
                    accuracy := some p.accuracy, loss := some p.loss,
                    r2Score := some p.r2Score, mae := some p.mae,
                    rmse := some p.rmse, mape := some p.mape }) ∧
    ((runTrainingBackground realPath p sid ticker modelType epochs db).2 =
      trainingStartedEvent epochs ::
        simulatedEpochEvents p (maxEpochsOf epochs) ++
          [finalProgressEvent p (maxEpochsOf epochs),
           trainingCompletedEvent (maxEpochsOf epochs)]) ∧
    (simulatedEpochEvents p (maxEpochsOf epochs)).length ≤ 20 := by
  rw [runTrainingBackground, hreal]
  refine ⟨findSession_completeTrainingImmediately p sid ticker modelType epochs db hs,
    rfl, ?_⟩
  rw [simulatedEpochEvents_length, maxEpochsOf_eq]
  omega

/-- C2 witness: the fail-over contract evaluated at a concrete IN_PROGRESS
session with an always-raising real path. -/
theorem C2_witness :
    (findSession (runTrainingBackground (fun _ => none) simParams0 "sess-3" "BTC-USD"
        "LSTM" 5 [fxSession "sess-3" .IN_PROGRESS]).1 "sess-3" =
      some { fxSession "sess-3" .IN_PROGRESS with
               status := .COMPLETED,
               accuracy := some simParams0.accuracy, loss := some simParams0.loss,
               r2Score := some simParams0.r2Score, mae := some simParams0.mae,
               rmse := some simParams0.rmse, mape := some simParams0.mape }) ∧
    ((runTrainingBackground (fun _ => none) simParams0 "sess-3" "BTC-USD" "LSTM" 5
        [fxSession "sess-3" .IN_PROGRESS]).2 =
      trainingStartedEvent 5 ::
        simulatedEpochEvents simParams0 (maxEpochsOf 5) ++
          [finalProgressEvent simParams0 (maxEpochsOf 5),
           trainingCompletedEvent (maxEpochsOf 5)]) ∧
    (simulatedEpochEvents simParams0 (maxEpochsOf 5)).length ≤ 20 :=
  C2_failover (fun _ => none) simParams0 "sess-3" "BTC-USD" "LSTM" 5
    [fxSession "sess-3" .IN_PROGRESS] (fxSession "sess-3" .IN_PROGRESS)
    rfl (by decide)

/-- C4: the capacity error is returned exactly when the count of IN_PROGRESS
sessions has reached the configured ceiling; on denial the store is untouched
(no session record created, no status changed), and a request with the active
count strictly below the ceiling is accepted, never denied. -/
theorem C4_admission (db : Store) (rid ticker modelType : String)
    (epochs maxEpochs maxSessions : ℕ) (h : epochs ≤ maxEpochs) :
    ((handleTrainingPost db rid ticker modelType epochs maxEpochs maxSessions).2.isCapacityError
        = true ↔ maxSessions ≤ countActive db) ∧
    (maxSessions ≤ countActive db →
      (handleTrainingPost db rid ticker modelType epochs maxEpochs maxSessions).1 = db) ∧
    (countActive db < maxSessions →
      (handleTrainingPost db rid ticker modelType epochs maxEpochs maxSessions).2 =
        .accepted rid) := by
  rw [handleTrainingPost]
  split_ifs with h1 h2 <;> simp_all [PostResponse.isCapacityError] <;> omega

/-- C4 witness: a store holding 10 IN_PROGRESS sessions is at the default
ceiling 10, so the request is denied with the store untouched; with ceiling 11
the same request is accepted. -/
theorem C4_witness :
    (10 ≤ countActive (List.replicate 10 (fxSession "busy" .IN_PROGRESS))) ∧
    ((handleTrainingPost (List.replicate 10 (fxSession "busy" .IN_PROGRESS)) "req-1"
        "BTC-USD" "LSTM" 5 1000 10).1 =
      List.replicate 10 (fxSession "busy" .IN_PROGRESS)) ∧
    ((handleTrainingPost (List.replicate 10 (fxSession "busy" .IN_PROGRESS)) "req-1"
        "BTC-USD" "LSTM" 5 1000 11).2 = .accepted "req-1") :=
  ⟨by decide,
   (C4_admission (List.replicate 10 (fxSession "busy" .IN_PROGRESS)) "req-1" "BTC-USD"
      "LSTM" 5 1000 10 (by decide)).2.1 (by decide),
   (C4_admission (List.replicate 10 (fxSession "busy" .IN_PROGRESS)) "req-1" "BTC-USD"
      "LSTM" 5 1000 11 (by decide)).2.2 (by decide)⟩

/-- C6: for the training stage `get_progress` computes
`base(train) + epoch_fraction/100 * (evaluate_ceiling − train_base)` truncated
to an integer and clamped above at 70, and for a 5-epoch job the per-epoch
tracker percentages are 46, 52, 58, 64, 70 — all within [40, 70] and strictly
increasing. -/
theorem C6_training_progress :
    (∀ f sub : ℚ, getProgress "training_progress" f sub =
      min (pyInt (40 + f / 100 * (70 - 40))) 70) ∧
    (∀ t : ProgressTracker,
      [1, 2, 3, 4, 5].map (fun e => (t.updateTrainingProgress e 5).currentProgress) =
        [46, 52, 58, 64, 70]) ∧
    ((46 : ℤ) < 52 ∧ (52 : ℤ) < 58 ∧ (58 : ℤ) < 64 ∧ (64 : ℤ) < 70) ∧
    (∀ v ∈ ([46, 52, 58, 64, 70] : List ℤ), 40 ≤ v ∧ v ≤ 70) := by
  refine ⟨?_, ?_, by decide, by decide⟩
  · intro f sub
    rw [getProgress_train]
    norm_num
  · intro t
    have h1 := trackerTrainValue t 1 5 46 (by push_cast; norm_num) (by norm_num)
    have h2 := trackerTrainValue t 2 5 52 (by push_cast; norm_num) (by norm_num)
    have h3 := trackerTrainValue t 3 5 58 (by push_cast; norm_num) (by norm_num)
    have h4 := trackerTrainValue t 4 5 64 (by push_cast; norm_num) (by norm_num)
    have h5 := trackerTrainValue t 5 5 70 (by push_cast; norm_num) (by norm_num)
    simp [h1, h2, h3, h4, h5]

/-- C6 witness: the formula instantiated at epoch fraction 20 (epoch 1 of 5)
and the range fact instantiated at the first per-epoch value 46. -/
theorem C6_witness :
    getProgress "training_progress" ((1 : ℚ) / 5 * 100) 0 =
      min (pyInt (40 + ((1 : ℚ) / 5 * 100) / 100 * (70 - 40))) 70 ∧
    (40 ≤ (46 : ℤ) ∧ (46 : ℤ) ≤ 70) :=
  ⟨C6_training_progress.1 ((1 : ℚ) / 5 * 100) 0,
   C6_training_progress.2.2.2 46 (by decide)⟩

/-- C7 (counterexample): the claim that out-of-range sub-progress values are
clamped into the stage's valid range (and that an unknown stage always yields
0) fails for negative inputs — an unknown stage with sub-progress −300 yields
−15, and the training stage with epoch-fraction −200 yields −20, below the
stage's [40, 70] band. -/
theorem C7_counterexample :
    getProgress "bogus" 0 (-300) = -15 ∧
    getProgress "training_progress" (-200) 0 = -20 := by
  constructor
  · rw [getProgress]
    have hb : stageBase "bogus" = 0 := by decide
    have hr : getStageRange "bogus" = 5 := by decide
    simp only [hb, hr, reduceIte]
    have hq : ((0 : ℤ) : ℚ) + (-300 : ℚ) / 100 * ((5 : ℤ) : ℚ) = ((-15 : ℤ) : ℚ) := by
      norm_num
    rw [hq, pyInt_intCast]
    decide
  · rw [getProgress_train]
    have hq : (40 : ℚ) + (-200 : ℚ) / 100 * 30 = ((-20 : ℤ) : ℚ) := by norm_num
    rw [hq, pyInt_intCast]
    decide

/-- C7 (amended): `get_progress` is total and never raises; an unknown stage
name yields 0 for every non-negative sub-progress, and every result is clamped
above by the stage's branch ceiling (70 / 85 / 100 / own ceiling) — but
negative fractions are not clamped from below and propagate out of range. -/
theorem C7_amended :
    (∀ stage : String, stage ∉ stageNames → ∀ f sub : ℚ, 0 ≤ sub →
      getProgress stage f sub = 0) ∧
    (∀ (stage : String) (f sub : ℚ), getProgress stage f sub ≤ stageUpperBound stage) := by
  exact ⟨fun stage h f sub hsub => getProgress_unknown h f sub hsub,
    fun stage f sub => getProgress_le stage f sub⟩

/-- C7 witness: an unknown stage with in-range sub-progress yields 0, and an
over-range epoch fraction at the training stage stays at or below the clamp 70. -/
theorem C7_witness :
    getProgress "bogus" 0 50 = 0 ∧
    getProgress "training_progress" 500 0 ≤ stageUpperBound "training_progress" :=
  ⟨C7_amended.1 "bogus" (by decide) 0 50 (by norm_num),
   C7_amended.2 "training_progress" 500 0⟩

/-- C9: joining a training room the client is not yet tracked in emits the
acknowledgment followed by exactly one synthetic `training_update` of type
`status` with progress 0, sent directly to the caller (not to the room), and
records the membership; a repeated join by the same client for the same
session is a no-op that emits nothing. -/
theorem C9_join_snapshot (cr : ClientRooms) (clientId sid : String) :
    (("training_" ++ sid) ∉ roomsOf cr clientId →
      (handleJoinTraining cr clientId (some sid)).2 =
        [joinedTrainingEmit sid, snapshotEmit sid] ∧
      ((handleJoinTraining cr clientId (some sid)).2.filter
          (fun e => e.event == "training_update")) = [snapshotEmit sid] ∧
      (snapshotEmit sid).dest = .toCaller ∧
      (snapshotEmit sid).typ = some "status" ∧
      (snapshotEmit sid).progress = some 0 ∧
      ("training_" ++ sid) ∈ roomsOf (handleJoinTraining cr clientId (some sid)).1
        clientId) ∧
    (("training_" ++ sid) ∈ roomsOf cr clientId →
      handleJoinTraining cr clientId (some sid) = (cr, [])) := by
  constructor
  · intro h
    have h2 : handleJoinTraining cr clientId (some sid) =
        (addRoom cr clientId ("training_" ++ sid),
         [joinedTrainingEmit sid, snapshotEmit sid]) := by
      rw [handleJoinTraining]
      simp only [if_neg h]
    rw [h2]
    refine ⟨rfl, ?_, rfl, rfl, rfl, roomsOf_addRoom clientId ("training_" ++ sid) cr⟩
    simp [joinedTrainingEmit, snapshotEmit, List.filter]
  · intro h
    rw [handleJoinTraining]
    simp [h]

/-- C9 witness: a fresh join by client c1 emits the snapshot and records the
room; the immediate second join is a no-op with no emissions. -/
theorem C9_witness :
    ((handleJoinTraining [] "c1" (some "sess-5")).2.filter
        (fun e => e.event == "training_update")) = [snapshotEmit "sess-5"] ∧
    handleJoinTraining (handleJoinTraining [] "c1" (some "sess-5")).1 "c1"
        (some "sess-5") =
      ((handleJoinTraining [] "c1" (some "sess-5")).1, []) :=
  ⟨((C9_join_snapshot [] "c1" "sess-5").1 (by decide)).2.1,
   (C9_join_snapshot (handleJoinTraining [] "c1" (some "sess-5")).1 "c1" "sess-5").2
     (by decide)⟩

/-- C10: the simulated path's trace is the start event, one epoch progress
event per simulated epoch, then the summary and completion events; the number
of epoch progress events is exactly `max 1 (min epochs 20)` (at most 20, and
still 1 when `epochs = 0`), and the final epoch event reports progress 100. -/
theorem C10_epoch_events (p : SimParams) (sid ticker modelType : String)
    (epochs : ℕ) (db : Store) :
    ((completeTrainingImmediately p sid ticker modelType epochs db).2 =
      trainingStartedEvent epochs ::
        simulatedEpochEvents p (maxEpochsOf epochs) ++
          [finalProgressEvent p (maxEpochsOf epochs),
           trainingCompletedEvent (maxEpochsOf epochs)]) ∧
    (simulatedEpochEvents p (maxEpochsOf epochs)).length = max 1 (min epochs 20) ∧
    (simulatedEpochEvents p (maxEpochsOf epochs)).getLast?.map (·.progress) =
      some 100 := by
  refine ⟨rfl, ?_, simulatedEpochEvents_getLast? p (maxEpochsOf epochs)
    (maxEpochsOf_pos epochs)⟩
  rw [simulatedEpochEvents_length, maxEpochsOf_eq]

end CryptoPredict
